import Mathlib

/-!
Shallow embedding of `src/app/data_sources.py` (crime-map pipeline).

The pipeline normalises three cities' crime tables, boundary geometries and
population data into bundles.  Raw tabular rows are embedded as structures
whose optional fields model pandas NaN cells; geometries are embedded as
axis-aligned rational boxes (a concrete instance of polygon geometry with
closed-set `intersects`/`within` semantics matching shapely's predicates);
Python dict semantics (insertion order, last-write-wins on duplicate keys)
are embedded explicitly.  Fallible operations (pandas `to_datetime` without
`errors="coerce"`) are embedded in `Option`.
-/

namespace CrimeMap

/-- A calendar date, as produced by pandas datetime parsing. -/
structure Date where
  year : Nat
  month : Nat
  day : Nat
deriving DecidableEq, Repr

/-- Splitting a character list on a separator character, with Python
`str.split(sep)` semantics: `"a//b"` gives `["a", "", "b"]`. -/
def splitCharsOn (sep : Char) : List Char → List (List Char)
  | [] => [[]]
  | c :: cs =>
      match splitCharsOn sep cs with
      | [] => [[c]]
      | r :: rs => if c = sep then [] :: r :: rs else (c :: r) :: rs

/-- A non-empty all-digit character list read as a decimal number. -/
def charsToNat? (cs : List Char) : Option Nat :=
  if cs = [] then none
  else if cs.all Char.isDigit then
    some (cs.foldl (fun n c => 10 * n + (c.toNat - 48)) 0)
  else none

/-- Python `str.strip()`: drop leading and trailing whitespace. -/
def pyStrip (s : String) : String :=
  String.mk (((s.data.dropWhile Char.isWhitespace).reverse.dropWhile
    Char.isWhitespace).reverse)

/-- Modelled external library behaviour: `pandas.to_datetime` applied to the
month-first slash-separated strings this pipeline produces
(`"MM/DD/YYYY"`-shaped input parses month-first; anything else fails). -/
def parseDate (s : String) : Option Date :=
  match (splitCharsOn '/' s.data).map charsToNat? with
  | [some m, some d, some y] =>
      if 1 ≤ m ∧ m ≤ 12 ∧ 1 ≤ d ∧ d ≤ 31 then some ⟨y, m, d⟩ else none
  | _ => none

/-- Python `str.title()` on ASCII text: a letter that follows a letter is
lowercased, any other letter is uppercased. -/
def titleGo : Bool → List Char → List Char
  | _, [] => []
  | prevAlpha, c :: cs =>
      (if prevAlpha then c.toLower else c.toUpper) :: titleGo c.isAlpha cs

/-- Python `str.title()` (`.str.title()` on a pandas string column). -/
def strTitle (s : String) : String := String.mk (titleGo false s.data)

/-- Pandas `.str.split(" ").str[0]`: the text before the first space. -/
def firstToken (s : String) : String :=
  String.mk ((splitCharsOn ' ' s.data).headD [])

/-- Pandas `.astype(str)` on a cell that may be NaN: NaN prints as "nan". -/
def astypeStr (v : Option String) : String :=
  match v with
  | none => "nan"
  | some s => s

/-- Python `str.rstrip(".0")`: strip every trailing character belonging to
the character set consisting of the dot and the zero digit. -/
def rstripDotZero (s : String) : String :=
  String.mk ((s.data.reverse.dropWhile (fun c => c == '.' || c == '0')).reverse)

/-- First-match association-list lookup, the embedding of a Python dict
lookup by string key (`dict.get` / `Series.map`). -/
def lookupStr : List (String × String) → String → Option String
  | [], _ => none
  | (k, val) :: rest, s => if k = s then some val else lookupStr rest s

/-- Pandas `Series.map(table)` on a string column: NaN cells stay NaN and
keys missing from the table give NaN. -/
def pdMap (table : List (String × String)) (v : Option String) : Option String :=
  match v with
  | none => none
  | some s => lookupStr table s

/-- Pandas `Series.fillna(other)` at one cell: keep the value when present,
otherwise take the fallback cell. -/
def fillna (v fallback : Option String) : Option String :=
  match v with
  | some s => some s
  | none => fallback

/-- Pandas `to_datetime` with the default `errors="raise"` on a cell: NaN
becomes NaT, a parseable string becomes a date, and an unparseable string
raises (outer `none`). -/
def toDatetimeStrict (v : Option String) : Option (Option Date) :=
  match v with
  | none => some none
  | some s =>
      match parseDate s with
      | some d => some (some d)
      | none => none

/-- `List.mapM` specialised to `Option`: the whole load fails when any row
fails (the embedding of a raising pandas column operation). -/
def optionTraverse (f : α → Option β) : List α → Option (List β)
  | [] => some []
  | x :: xs =>
      match f x, optionTraverse f xs with
      | some y, some ys => some (y :: ys)
      | _, _ => none

/-- An axis-aligned box with rational corners: the concrete polygon geometry
used by the embedding (a closed subset of the plane). -/
structure Box where
  xmin : ℚ
  ymin : ℚ
  xmax : ℚ
  ymax : ℚ
deriving DecidableEq, Repr

/-- Shapely `intersects` on closed boxes: the point sets share at least one
point (boundary touching counts). -/
def Box.intersects (a b : Box) : Bool :=
  decide (a.xmin ≤ b.xmax) && decide (b.xmin ≤ a.xmax) &&
    decide (a.ymin ≤ b.ymax) && decide (b.ymin ≤ a.ymax)

/-- Shapely `within` on closed boxes: the first box's point set is contained
in the second's. -/
def Box.within (a b : Box) : Bool :=
  decide (b.xmin ≤ a.xmin) && decide (a.xmax ≤ b.xmax) &&
    decide (b.ymin ≤ a.ymin) && decide (a.ymax ≤ b.ymax)

/-- The canonical crime record shape shared by the three Source Loaders
(the `Date`, `Crime`, `Macro Crime` and neighborhood columns; per-city
passthrough columns such as `Reporting Area` or `BPD District` carry no
claim-relevant content and are omitted). -/
structure CrimeRecord where
  date : Option Date
  crime : Option String
  macroCrime : Option String
  neighborhood : Option String
deriving DecidableEq, Repr

/-- A raw row of the Cambridge crime CSV (the columns the loader selects). -/
structure CambridgeRow where
  crimeDateTime : Option String
  crime : Option String
  neighborhood : Option String
  reportingArea : Option String
deriving DecidableEq, Repr

/-- A raw row of the Boston crime CSV (the columns the loader selects). -/
structure BostonRow where
  fromDate : Option String
  crime : Option String
  neighborhood : Option String
  bpdDistrict : Option String
deriving DecidableEq, Repr

/-- A raw row of the Somerville crime CSV (the columns the loader uses). -/
structure SomervilleRow where
  dayMonthReported : Option String
  yearReported : Option String
  offenseType : Option String
  blockCode : Option String
deriving DecidableEq, Repr

/-- A row of the MA census-block shapefile: `TOWN`, `GEOID20`, geometry. -/
structure BlockRow where
  town : String
  geoid20 : String
  geom : Box
deriving DecidableEq, Repr

/-- A row of the Somerville neighborhood shapefile: the `NBHD` name column
and the geometry.  `areaProjected` is the area the geometry has after
`to_crs(epsg=26986)` (the equal-area reprojection and shapely `.area` call
are external geometric library operations carried here as data). -/
structure SomervilleGeoRow where
  nbhd : Option String
  geom : Box
  areaProjected : ℚ
deriving DecidableEq, Repr

/-- A row of the Cambridge neighborhood shapefile (`NAME`, geometry). -/
structure CambridgeGeoRow where
  name : Option String
  geom : Box
  areaProjected : ℚ
deriving DecidableEq, Repr

/-- A row of the Boston shapefile (`blockgr202` name column, geometry). -/
structure BostonGeoRow where
  blockgr202 : Option String
  geom : Box
  areaProjected : ℚ
deriving DecidableEq, Repr

/-- A loaded geometry region: raw name column, the `Mapped_Name` column the
geo loaders attach, geometry, projected area, and the `City` tag added only
by the all-metro composer. -/
structure GeoRegion where
  rawName : Option String
  mappedName : Option String
  geom : Box
  areaProjected : ℚ
  city : Option String
deriving DecidableEq, Repr

/-- The record `load_cambridge_crime` builds from one CSV row once the date
cell has been handled: raw crime label, macro category looked up from the
raw label, raw neighborhood. -/
def cambridgeRecord (macroMap : List (String × String)) (r : CambridgeRow)
    (d : Option Date) : CrimeRecord :=
  { date := d
    crime := r.crime
    macroCrime := pdMap macroMap r.crime
    neighborhood := r.neighborhood }

/-- `load_cambridge_crime`: select columns, parse the date part of the
date-time string (raising on malformed non-null cells), look the raw crime
label up in the macro table. -/
def load_cambridge_crime (macroMap : List (String × String))
    (rows : List CambridgeRow) : Option (List CrimeRecord) :=
  optionTraverse
    (fun r => (toDatetimeStrict (r.crimeDateTime.map firstToken)).map
      (cambridgeRecord macroMap r))
    rows

/-- The record `load_boston_crime` builds from one CSV row: title-cased
crime label, macro category looked up from the title-cased label,
neighborhood remapped through the name dictionary with `fillna` fallback to
the original name. -/
def bostonRecord (macroMap nameMap : List (String × String)) (r : BostonRow)
    (d : Option Date) : CrimeRecord :=
  { date := d
    crime := r.crime.map strTitle
    macroCrime := pdMap macroMap (r.crime.map strTitle)
    neighborhood := fillna (pdMap nameMap r.neighborhood) r.neighborhood }

/-- `load_boston_crime`: same date-time-split strategy as Cambridge, plus
title-casing of the crime label and neighborhood remapping. -/
def load_boston_crime (macroMap nameMap : List (String × String))
    (rows : List BostonRow) : Option (List CrimeRecord) :=
  optionTraverse
    (fun r => (toDatetimeStrict (r.fromDate.map firstToken)).map
      (bostonRecord macroMap nameMap r))
    rows

/-- `load_cambridge_geo`: attach `Mapped_Name` by mapping the `NAME` column
through the name table (no fillna fallback appears in the source). -/
def load_cambridge_geo (nameMap : List (String × String))
    (rows : List CambridgeGeoRow) : List GeoRegion :=
  rows.map (fun r =>
    { rawName := r.name
      mappedName := pdMap nameMap r.name
      geom := r.geom
      areaProjected := r.areaProjected
      city := none })

/-- `load_boston_geo`: attach `Mapped_Name` by mapping `blockgr202` through
the name table with `fillna` fallback to the raw name. -/
def load_boston_geo (nameMap : List (String × String))
    (rows : List BostonGeoRow) : List GeoRegion :=
  rows.map (fun r =>
    { rawName := r.blockgr202
      mappedName := fillna (pdMap nameMap r.blockgr202) r.blockgr202
      geom := r.geom
      areaProjected := r.areaProjected
      city := none })

/-- `load_somerville_geo`: `Mapped_Name` is simply the `NBHD` column. -/
def load_somerville_geo (rows : List SomervilleGeoRow) : List GeoRegion :=
  rows.map (fun r =>
    { rawName := r.nbhd
      mappedName := r.nbhd
      geom := r.geom
      areaProjected := r.areaProjected
      city := none })

/-- Python dict insertion: overwrite in place when the key is present
(keeping the key's original position), otherwise append. -/
def dictInsert (d : List (Option String × ℚ)) (k : Option String) (v : ℚ) :
    List (Option String × ℚ) :=
  if d.any (fun p => p.1 == k) then
    d.map (fun p => if p.1 == k then (k, v) else p)
  else d ++ [(k, v)]

/-- Python `dict.update` / `{**d, **e}`: fold the second mapping's pairs
into the first, later pairs overwriting earlier ones. -/
def dictUpdate (d e : List (Option String × ℚ)) : List (Option String × ℚ) :=
  e.foldl (fun acc p => dictInsert acc p.1 p.2) d

/-- Building a Python dict from an ordered sequence of key/value pairs
(`Series.to_dict`): first occurrence fixes the position, last occurrence
fixes the value. -/
def dictOfPairs (ps : List (Option String × ℚ)) : List (Option String × ℚ) :=
  dictUpdate [] ps

/-- Dict lookup by key. -/
def dictGet (d : List (Option String × ℚ)) (k : Option String) : Option ℚ :=
  (d.find? (fun p => p.1 == k)).map (fun p => p.2)

/-- The values of a dict, in key-insertion order (`dict.values()`). -/
def dictValues (d : List (Option String × ℚ)) : List ℚ :=
  d.map (fun p => p.2)

/-- Pandas `Series.unique()` on the non-null names: first occurrences, in
encounter order. -/
def firstUnique : List String → List String
  | [] => []
  | x :: xs => x :: firstUnique (xs.filter (fun y => y != x))
termination_by l => l.length
decreasing_by
  simpa using Nat.lt_succ_of_le (List.length_filter_le _ xs)

/-- `_build_area_weighted_population`: project each region to the equal-area
CRS and take its area (carried as `areaProjected`), sum to a total; if the
total is zero, give the full total population to every distinct non-null
`NBHD` name (`dropna().unique()`); otherwise apportion by area ratio and
collect `set_index("NBHD")["pop"].to_dict()`. -/
def _build_area_weighted_population (geo_df : List GeoRegion)
    (total_population : ℚ) : List (Option String × ℚ) :=
  let total_area : ℚ := (geo_df.map GeoRegion.areaProjected).sum
  if total_area = 0 then
    (firstUnique (geo_df.filterMap GeoRegion.rawName)).map
      (fun name => (some name, total_population))
  else
    dictOfPairs (geo_df.map
      (fun r => (r.rawName, r.areaProjected / total_area * total_population)))

/-- The record `load_somerville_crime` builds from one CSV row, before the
census-block merge fills in the neighborhood: date reconstructed from the
day/month and year cells ("01/01" substituted for a blank day/month,
`errors="coerce"` turning parse failures into null), title-cased coerced
crime label, macro category looked up from that label. -/
def somRecord (macroMap : List (String × String)) (r : SomervilleRow)
    (nb : Option String) : CrimeRecord :=
  let dayMonth := pyStrip (r.dayMonthReported.getD "")
  let combined :=
    (if dayMonth = "" then "01/01" else dayMonth) ++ "/" ++ astypeStr r.yearReported
  let crime := strTitle (astypeStr r.offenseType)
  { date := parseDate combined
    crime := some crime
    macroCrime := lookupStr macroMap crime
    neighborhood := nb }

/-- The combined date string `day-month/year` the Somerville loader hands
to `to_datetime`. -/
def somDateString (r : SomervilleRow) : String :=
  let dayMonth := pyStrip (r.dayMonthReported.getD "")
  (if dayMonth = "" then "01/01" else dayMonth) ++ "/" ++ astypeStr r.yearReported

/-- The census-block rows whose `TOWN` column is `"SOMERVILLE"`. -/
def somervilleBlocks (blocks : List BlockRow) : List BlockRow :=
  blocks.filter (fun b => b.town == "SOMERVILLE")

/-- The left merge of one crime row's normalized block code against the
Somerville census blocks (`merge(..., how="left")`): an unmatched code
keeps the row once with a null geometry, a matched code produces one row
per matching block. -/
def mergeBlockGeoms (code : String) (blocks : List BlockRow) :
    List (Option Box) :=
  match (somervilleBlocks blocks).filter (fun b => b.geoid20 == code) with
  | [] => [none]
  | ms => ms.map (fun b => some b.geom)

/-- The left spatial join of one merged row against the neighborhood layer
(`sjoin(..., how="left", predicate="intersects")`): a null geometry or a
geometry intersecting no polygon keeps the row once with a null
neighborhood, otherwise one row per intersecting polygon. -/
def sjoinNeighborhoods (og : Option Box) (geo_df : List GeoRegion) :
    List (Option String) :=
  match og with
  | none => [none]
  | some g =>
      match geo_df.filter (fun reg => g.intersects reg.geom) with
      | [] => [none]
      | ms => ms.map (fun reg => reg.rawName)

/-- `load_somerville_crime`: reconstruct dates, title-case labels, look up
macro categories, textually normalize block codes, left-merge against the
Somerville census blocks and left-spatial-join against the neighborhood
layer loaded by `load_somerville_geo`. -/
def load_somerville_crime (macroMap : List (String × String))
    (rows : List SomervilleRow) (blocks : List BlockRow)
    (geoRows : List SomervilleGeoRow) : List CrimeRecord :=
  let geo_df := load_somerville_geo geoRows
  rows.flatMap (fun r =>
    let code := rstripDotZero (astypeStr r.blockCode)
    (mergeBlockGeoms code blocks).flatMap (fun og =>
      (sjoinNeighborhoods og geo_df).map (fun nb => somRecord macroMap r nb)))

/-- Rows of the Boston population sheet up to and including the first row
labelled by the stop key (the end of a pandas `.loc` label slice). -/
def takeThroughKey (stop : String) :
    List (Option String × ℚ) → List (Option String × ℚ)
  | [] => []
  | p :: ps => if p.1 == some stop then [p] else p :: takeThroughKey stop ps

/-- `load_boston_population`: label-slice the indexed sheet from "Allston"
through "West Roxbury", take the "Total Population" column as a dict, and
whitespace-trim the keys. -/
def load_boston_population (xlsm : List (Option String × ℚ)) :
    List (Option String × ℚ) :=
  dictOfPairs
    ((takeThroughKey "West Roxbury"
        (xlsm.dropWhile (fun p => !(p.1 == some "Allston")))).map
      (fun p => (p.1.map String.trim, p.2)))

/-- A composed bundle: crime records, geometry regions, population mapping,
map-zoom hint and population-year provenance label. -/
structure Bundle where
  crime : List CrimeRecord
  geo : List GeoRegion
  population : List (Option String × ℚ)
  zoom : ℚ
  populationYear : String
deriving DecidableEq, Repr

/-- The fixed external inputs of the pipeline: the raw data files and the
configuration tables imported from `config` (`*_CRIME_MACROS`,
`*_NEIGHBORHOOD_NAME_MAP`, `CAMBRIDGE_POP_2020`,
`SOMERVILLE_TOTAL_POP_2022`, and the file contents). -/
structure Env where
  cambridgeCrimeCsv : List CambridgeRow
  cambridgeMacroMap : List (String × String)
  cambridgeNameMap : List (String × String)
  cambridgeShapefile : List CambridgeGeoRow
  cambridgePop2020 : List (Option String × ℚ)
  bostonCrimeCsv : List BostonRow
  bostonMacroMap : List (String × String)
  bostonNameMap : List (String × String)
  bostonShapefile : List BostonGeoRow
  bostonPopXlsm : List (Option String × ℚ)
  somervilleCrimeCsv : List SomervilleRow
  somervilleMacroMap : List (String × String)
  somervilleShapefile : List SomervilleGeoRow
  somervilleTotalPop2022 : ℚ
  maCensusBlocks : List BlockRow

/-- `get_cambridge_bundle`: crime, geo, the static population table, zoom
13 and the "2020" provenance label. -/
def get_cambridge_bundle (env : Env) : Option Bundle :=
  (load_cambridge_crime env.cambridgeMacroMap env.cambridgeCrimeCsv).map
    (fun crime =>
      { crime := crime
        geo := load_cambridge_geo env.cambridgeNameMap env.cambridgeShapefile
        population := env.cambridgePop2020
        zoom := 13
        populationYear := "2020" })

/-- `get_boston_bundle`: crime, geo, the ranged-lookup population table,
zoom 12 and the "2019" provenance label. -/
def get_boston_bundle (env : Env) : Option Bundle :=
  (load_boston_crime env.bostonMacroMap env.bostonNameMap env.bostonCrimeCsv).map
    (fun crime =>
      { crime := crime
        geo := load_boston_geo env.bostonNameMap env.bostonShapefile
        population := load_boston_population env.bostonPopXlsm
        zoom := 12
        populationYear := "2019" })

/-- `get_somerville_bundle`: crime, geo, the area-weighted population built
from the loaded geometry and the scalar total, zoom 13 and the
"2022 (area-weighted)" provenance label. -/
def get_somerville_bundle (env : Env) : Bundle :=
  let geo_df := load_somerville_geo env.somervilleShapefile
  { crime := load_somerville_crime env.somervilleMacroMap
      env.somervilleCrimeCsv env.maCensusBlocks env.somervilleShapefile
    geo := geo_df
    population := _build_area_weighted_population geo_df env.somervilleTotalPop2022
    zoom := 13
    populationYear := "2022 (area-weighted)" }

/-- `assign(City=c)` on one geometry region. -/
def assignCity (c : String) (g : GeoRegion) : GeoRegion :=
  { g with city := some c }

/-- `get_all_metro_bundle`: concatenate the three crime sequences in
Cambridge, Boston, Somerville order; concatenate the three geo sequences
with a `City` tag; merge the three population dicts with later cities
overwriting earlier ones on key collision (`{**a, **b, **c}`). -/
def get_all_metro_bundle (env : Env) : Option Bundle :=
  match get_cambridge_bundle env, get_boston_bundle env with
  | some cambridge, some boston =>
      let somerville := get_somerville_bundle env
      some
        { crime := cambridge.crime ++ boston.crime ++ somerville.crime
          geo := cambridge.geo.map (assignCity "Cambridge") ++
            boston.geo.map (assignCity "Boston") ++
            somerville.geo.map (assignCity "Somerville")
          population := dictUpdate
            (dictUpdate (dictUpdate [] cambridge.population) boston.population)
            somerville.population
          zoom := 23 / 2
          populationYear := "2020, 2019, 2022" }
  | _, _ => none

/-- `get_bundle`: dispatch on the three exact city names, with every other
municipality string falling through to the all-metro bundle. -/
def get_bundle (municipality : String) (env : Env) : Option Bundle :=
  if municipality = "Cambridge" then get_cambridge_bundle env
  else if municipality = "Boston" then get_boston_bundle env
  else if municipality = "Somerville" then some (get_somerville_bundle env)
  else get_all_metro_bundle env

/-- An environment with every source empty: the smallest input on which the
whole pipeline runs. -/
def emptyEnv : Env :=
  { cambridgeCrimeCsv := []
    cambridgeMacroMap := []
    cambridgeNameMap := []
    cambridgeShapefile := []
    cambridgePop2020 := []
    bostonCrimeCsv := []
    bostonMacroMap := []
    bostonNameMap := []
    bostonShapefile := []
    bostonPopXlsm := []
    somervilleCrimeCsv := []
    somervilleMacroMap := []
    somervilleShapefile := []
    somervilleTotalPop2022 := 0
    maCensusBlocks := [] }

theorem sum_map_div_mul (l : List ℚ) (A P : ℚ) :
    (l.map (fun a => a / A * P)).sum = l.sum / A * P := by
  induction l with
  | nil => simp
  | cons a as ih => simp [ih, add_div, add_mul]

theorem dictInsert_of_forall_ne (d : List (Option String × ℚ))
    (k : Option String) (v : ℚ) (h : ∀ p ∈ d, p.1 ≠ k) :
    dictInsert d k v = d ++ [(k, v)] := by
  have hany : d.any (fun p => p.1 == k) = false := by
    rw [List.any_eq_false]
    intro p hp
    simpa using h p hp
  simp [dictInsert, hany]

theorem dictUpdate_eq_append (ps : List (Option String × ℚ)) :
    ∀ acc : List (Option String × ℚ),
    (∀ p ∈ ps, ∀ q ∈ acc, q.1 ≠ p.1) → (ps.map Prod.fst).Nodup →
    dictUpdate acc ps = acc ++ ps := by
  induction ps with
  | nil => intro acc _ _; simp [dictUpdate]
  | cons p rest ih =>
      intro acc hdisj hnd
      have hstep : dictInsert acc p.1 p.2 = acc ++ [p] := by
        rw [dictInsert_of_forall_ne acc p.1 p.2
          (fun q hq => hdisj p (List.mem_cons_self _ _) q hq)]
      have hnd' : p.1 ∉ rest.map Prod.fst ∧ (rest.map Prod.fst).Nodup := by
        rw [List.map_cons, List.nodup_cons] at hnd
        exact hnd
      have htail : dictUpdate (acc ++ [p]) rest = (acc ++ [p]) ++ rest := by
        refine ih (acc ++ [p]) ?_ hnd'.2
        intro q hq a ha
        rcases List.mem_append.mp ha with ha | ha
        · exact hdisj q (List.mem_cons_of_mem _ hq) a ha
        · have hap : a = p := by simpa using ha
          subst hap
          intro hcontra
          exact hnd'.1 (hcontra ▸ List.mem_map.mpr ⟨q, hq, rfl⟩)
      calc dictUpdate acc (p :: rest)
          = dictUpdate (dictInsert acc p.1 p.2) rest := rfl
        _ = dictUpdate (acc ++ [p]) rest := by rw [hstep]
        _ = (acc ++ [p]) ++ rest := htail
        _ = acc ++ (p :: rest) := by simp

theorem dictOfPairs_of_nodup (ps : List (Option String × ℚ))
    (hnd : (ps.map Prod.fst).Nodup) : dictOfPairs ps = ps := by
  simpa [dictOfPairs] using dictUpdate_eq_append ps [] (by simp) hnd

theorem dictGet_of_mem (ps : List (Option String × ℚ)) (k : Option String)
    (v : ℚ) (hnd : (ps.map Prod.fst).Nodup) (hm : (k, v) ∈ ps) :
    dictGet ps k = some v := by
  induction ps with
  | nil => simp at hm
  | cons p rest ih =>
      have hnd' := List.nodup_cons.mp hnd
      rcases List.mem_cons.mp hm with h1 | h1
      · simp [dictGet, ← h1]
      · have hk : ¬(p.1 == k) := by
          have hmem : k ∈ rest.map Prod.fst :=
            List.mem_map.mpr ⟨(k, v), h1, rfl⟩
          simpa using fun he : p.1 = k => hnd'.1 (he ▸ hmem)
        simpa [dictGet, List.find?_cons, hk] using ih hnd'.2 h1

/-- Claim C1 (amended): for every set of regions whose `NBHD` names are
pairwise distinct and whose total projected area is strictly positive, the
area-weighted apportionment returns a mapping whose values sum to exactly
the supplied total population, each region's value being
(region area / total area) × total population.  (Without the distinctness
hypothesis the claim fails: `to_dict` keeps only the last row per duplicated
name, see the counterexample.) -/
theorem claim_C1_sum_preserved (geo_df : List GeoRegion) (P : ℚ)
    (hA : 0 < (geo_df.map GeoRegion.areaProjected).sum)
    (hnd : (geo_df.map GeoRegion.rawName).Nodup) :
    (dictValues (_build_area_weighted_population geo_df P)).sum = P ∧
    ∀ r ∈ geo_df,
      dictGet (_build_area_weighted_population geo_df P) r.rawName =
        some (r.areaProjected / (geo_df.map GeoRegion.areaProjected).sum * P) := by
  have hA0 : (geo_df.map GeoRegion.areaProjected).sum ≠ 0 := ne_of_gt hA
  have hkeys :
      ((geo_df.map (fun r =>
          (r.rawName, r.areaProjected / (geo_df.map GeoRegion.areaProjected).sum * P))).map
        Prod.fst).Nodup := by
    simpa [List.map_map, Function.comp] using hnd
  have hbuild : _build_area_weighted_population geo_df P =
      geo_df.map (fun r =>
        (r.rawName, r.areaProjected / (geo_df.map GeoRegion.areaProjected).sum * P)) := by
    simp only [_build_area_weighted_population, if_neg hA0]
    exact dictOfPairs_of_nodup _ hkeys
  constructor
  · rw [hbuild]
    have : (geo_df.map (fun r =>
        (r.rawName, r.areaProjected / (geo_df.map GeoRegion.areaProjected).sum * P))).map
          (fun p => p.2) =
        (geo_df.map GeoRegion.areaProjected).map
          (fun a => a / (geo_df.map GeoRegion.areaProjected).sum * P) := by
      simp [List.map_map, Function.comp]
    rw [dictValues, this, sum_map_div_mul, div_self hA0, one_mul]
  · intro r hr
    rw [hbuild]
    exact dictGet_of_mem _ _ _ hkeys (List.mem_map.mpr ⟨r, hr, rfl⟩)

/-- Concrete instantiation of the previous theorem: one region named "X"
with projected area 2 and total population 10 receives the whole total. -/
theorem claim_C1_witness :
    (dictValues (_build_area_weighted_population
      [⟨some "X", some "X", ⟨0, 0, 1, 1⟩, 2, none⟩] 10)).sum = 10 ∧
    dictGet (_build_area_weighted_population
        [⟨some "X", some "X", ⟨0, 0, 1, 1⟩, 2, none⟩] 10)
      (⟨some "X", some "X", ⟨0, 0, 1, 1⟩, 2, none⟩ : GeoRegion).rawName =
        some ((⟨some "X", some "X", ⟨0, 0, 1, 1⟩, 2, none⟩ : GeoRegion).areaProjected /
          (([⟨some "X", some "X", ⟨0, 0, 1, 1⟩, 2, none⟩] : List GeoRegion).map
            GeoRegion.areaProjected).sum * 10) :=
  ⟨(claim_C1_sum_preserved _ 10 (by norm_num) (by decide)).1,
   (claim_C1_sum_preserved _ 10 (by norm_num) (by decide)).2
     ⟨some "X", some "X", ⟨0, 0, 1, 1⟩, 2, none⟩ (by simp)⟩

/-- Claim C1 as stated is false on the code: two regions sharing the name
"X" (projected areas 1 and 1, total area 2 > 0) with total population 100
produce the mapping whose values sum to 50, not 100, because
`set_index("NBHD")["pop"].to_dict()` keeps only the last row per duplicated
name. -/
theorem claim_C1_counterexample :
    0 < (([⟨some "X", some "X", ⟨0, 0, 1, 1⟩, 1, none⟩,
        ⟨some "X", some "X", ⟨0, 0, 1, 1⟩, 1, none⟩] : List GeoRegion).map
      GeoRegion.areaProjected).sum ∧
    (dictValues (_build_area_weighted_population
      [⟨some "X", some "X", ⟨0, 0, 1, 1⟩, 1, none⟩,
       ⟨some "X", some "X", ⟨0, 0, 1, 1⟩, 1, none⟩] 100)).sum ≠ 100 := by
  constructor
  · norm_num
  · norm_num [_build_area_weighted_population, dictOfPairs, dictUpdate,
      dictInsert, dictValues]

theorem firstUnique_eq_self (l : List String) (h : l.Nodup) :
    firstUnique l = l := by
  induction l with
  | nil => simp [firstUnique]
  | cons x xs ih =>
      have h' := List.nodup_cons.mp h
      have hf : xs.filter (fun y => y != x) = xs := by
        apply List.filter_eq_self.mpr
        intro y hy
        simpa [bne_iff_ne] using fun he : y = x => h'.1 (he ▸ hy)
      rw [firstUnique, hf, ih h'.2]

theorem filterMap_rawName_map_some (l : List GeoRegion)
    (h : ∀ r ∈ l, r.rawName.isSome) :
    (l.filterMap GeoRegion.rawName).map some = l.map GeoRegion.rawName := by
  induction l with
  | nil => rfl
  | cons r rest ih =>
      obtain ⟨n, hn⟩ := Option.isSome_iff_exists.mp (h r (List.mem_cons_self _ _))
      rw [List.filterMap_cons, hn, List.map_cons, List.map_cons, ← hn]
      exact congrArg _ (ih (fun q hq => h q (List.mem_cons_of_mem _ hq)))

theorem sum_map_const_q (l : List α) (P : ℚ) :
    (l.map (fun _ => P)).sum = l.length * P := by
  induction l with
  | nil => simp
  | cons a as ih =>
      simp [ih]
      ring

/-- Claim C2 (amended): when the total projected area is exactly zero, the
apportionment assigns the full supplied total population to every distinct
non-null region name and raises no exception; when the region names are
pairwise distinct and non-null this makes the returned values sum to
N × P for the N regions.  (As stated — "every region", "sum N×P" — the
claim fails when two regions share a name, since `dropna().unique()`
deduplicates the keys; see the counterexample.) -/
theorem claim_C2_zero_area (geo_df : List GeoRegion) (P : ℚ)
    (h0 : (geo_df.map GeoRegion.areaProjected).sum = 0)
    (hsome : ∀ r ∈ geo_df, r.rawName.isSome)
    (hnd : (geo_df.map GeoRegion.rawName).Nodup) :
    _build_area_weighted_population geo_df P =
      geo_df.map (fun r => (r.rawName, P)) ∧
    (dictValues (_build_area_weighted_population geo_df P)).sum =
      geo_df.length * P ∧
    ∀ r ∈ geo_df,
      dictGet (_build_area_weighted_population geo_df P) r.rawName = some P := by
  have hms := filterMap_rawName_map_some geo_df hsome
  have hndnames : (geo_df.filterMap GeoRegion.rawName).Nodup :=
    List.Nodup.of_map some (hms ▸ hnd)
  have hpairs : ∀ l : List GeoRegion, (∀ r ∈ l, r.rawName.isSome) →
      (l.filterMap GeoRegion.rawName).map
          (fun name => ((some name : Option String), P)) =
        l.map (fun r => (r.rawName, P)) := by
    intro l
    induction l with
    | nil => intro _; rfl
    | cons r rest ih =>
        intro hl
        obtain ⟨n, hn⟩ :=
          Option.isSome_iff_exists.mp (hl r (List.mem_cons_self _ _))
        simp only [List.filterMap_cons, hn, List.map_cons]
        exact congrArg _ (ih (fun q hq => hl q (List.mem_cons_of_mem _ hq)))
  have hbuild : _build_area_weighted_population geo_df P =
      geo_df.map (fun r => (r.rawName, P)) := by
    simp only [_build_area_weighted_population, if_pos h0]
    rw [firstUnique_eq_self _ hndnames]
    exact hpairs geo_df hsome
  refine ⟨hbuild, ?_, ?_⟩
  · rw [hbuild, dictValues, List.map_map]
    exact sum_map_const_q geo_df P
  · intro r hr
    rw [hbuild]
    refine dictGet_of_mem _ _ _ ?_ (List.mem_map.mpr ⟨r, hr, rfl⟩)
    simpa [List.map_map, Function.comp] using hnd

/-- Concrete instantiation of the previous theorem: two zero-area regions
named "X" and "Y" with total population 7 each receive 7, the values
summing to 2 × 7. -/
theorem claim_C2_witness :
    _build_area_weighted_population
        [⟨some "X", some "X", ⟨0, 0, 1, 1⟩, 0, none⟩,
         ⟨some "Y", some "Y", ⟨0, 0, 1, 1⟩, 0, none⟩] 7 =
      ([⟨some "X", some "X", ⟨0, 0, 1, 1⟩, 0, none⟩,
        ⟨some "Y", some "Y", ⟨0, 0, 1, 1⟩, 0, none⟩] : List GeoRegion).map
        (fun r => (r.rawName, 7)) ∧
    (dictValues (_build_area_weighted_population
        [⟨some "X", some "X", ⟨0, 0, 1, 1⟩, 0, none⟩,
         ⟨some "Y", some "Y", ⟨0, 0, 1, 1⟩, 0, none⟩] 7)).sum =
      ([⟨some "X", some "X", ⟨0, 0, 1, 1⟩, 0, none⟩,
        ⟨some "Y", some "Y", ⟨0, 0, 1, 1⟩, 0, none⟩] : List GeoRegion).length * 7 ∧
    dictGet (_build_area_weighted_population
        [⟨some "X", some "X", ⟨0, 0, 1, 1⟩, 0, none⟩,
         ⟨some "Y", some "Y", ⟨0, 0, 1, 1⟩, 0, none⟩] 7)
      (⟨some "X", some "X", ⟨0, 0, 1, 1⟩, 0, none⟩ : GeoRegion).rawName = some 7 :=
  ⟨(claim_C2_zero_area _ 7 (by norm_num) (by decide) (by decide)).1,
   (claim_C2_zero_area _ 7 (by norm_num) (by decide) (by decide)).2.1,
   (claim_C2_zero_area _ 7 (by norm_num) (by decide) (by decide)).2.2
     ⟨some "X", some "X", ⟨0, 0, 1, 1⟩, 0, none⟩ (by simp)⟩

/-- Claim C2 as stated is false on the code: two zero-area regions sharing
the name "X" produce a single-key mapping whose values sum to 7, not
2 × 7 = 14, because the fallback iterates `dropna().unique()` names. -/
theorem claim_C2_counterexample :
    ((([⟨some "X", some "X", ⟨0, 0, 1, 1⟩, 0, none⟩,
        ⟨some "X", some "X", ⟨0, 0, 1, 1⟩, 0, none⟩] : List GeoRegion)).map
      GeoRegion.areaProjected).sum = 0 ∧
    (dictValues (_build_area_weighted_population
        [⟨some "X", some "X", ⟨0, 0, 1, 1⟩, 0, none⟩,
         ⟨some "X", some "X", ⟨0, 0, 1, 1⟩, 0, none⟩] 7)).sum ≠
      (([⟨some "X", some "X", ⟨0, 0, 1, 1⟩, 0, none⟩,
         ⟨some "X", some "X", ⟨0, 0, 1, 1⟩, 0, none⟩] : List GeoRegion)).length * 7 := by
  constructor
  · norm_num
  · norm_num [_build_area_weighted_population, firstUnique, dictValues,
      List.filterMap_cons, List.filterMap_nil]

/-- Claim C3: the combined all-metro bundle's crime sequence is exactly the
concatenation of the three per-city crime sequences in city-major order
(Cambridge, then Boston, then Somerville), and its length is exactly the
sum of the three per-city lengths — no record dropped or duplicated by the
concatenation itself. -/
theorem claim_C3_metro_concat (env : Env) (cb bb mb : Bundle)
    (hc : get_cambridge_bundle env = some cb)
    (hb : get_boston_bundle env = some bb)
    (hm : get_all_metro_bundle env = some mb) :
    mb.crime = cb.crime ++ bb.crime ++ (get_somerville_bundle env).crime ∧
    mb.crime.length =
      cb.crime.length + bb.crime.length +
        (get_somerville_bundle env).crime.length := by
  simp only [get_all_metro_bundle, hc, hb] at hm
  injection hm with h
  subst h
  exact ⟨rfl, by simp [Nat.add_assoc]⟩

/-- Concrete bundle values used to instantiate the concatenation theorem on
the empty environment. -/
def sampleCambridgeBundle : Bundle :=
  { crime := [], geo := [], population := [], zoom := 13, populationYear := "2020" }

def sampleBostonBundle : Bundle :=
  { crime := [], geo := [], population := [], zoom := 12, populationYear := "2019" }

def sampleMetroBundle : Bundle :=
  { crime := [], geo := [], population := [], zoom := 23 / 2,
    populationYear := "2020, 2019, 2022" }

/-- Concrete instantiation of the concatenation theorem on the empty
environment. -/
theorem claim_C3_witness :
    sampleMetroBundle.crime =
      sampleCambridgeBundle.crime ++ sampleBostonBundle.crime ++
        (get_somerville_bundle emptyEnv).crime ∧
    sampleMetroBundle.crime.length =
      sampleCambridgeBundle.crime.length + sampleBostonBundle.crime.length +
        (get_somerville_bundle emptyEnv).crime.length :=
  claim_C3_metro_concat emptyEnv sampleCambridgeBundle sampleBostonBundle
    sampleMetroBundle rfl rfl
    (by simp [get_all_metro_bundle, get_cambridge_bundle, get_boston_bundle,
      get_somerville_bundle, emptyEnv, load_cambridge_crime, load_boston_crime,
      load_somerville_crime, load_boston_population, load_cambridge_geo,
      load_boston_geo, load_somerville_geo, _build_area_weighted_population,
      firstUnique, optionTraverse, dictUpdate, dictOfPairs, takeThroughKey,
      sampleMetroBundle])

/-- Claim C9: the Somerville block-identifier normalization is the literal
textual `rstrip(".0")` trim applied by the loader, under which the input
string "1500.0" normalizes to exactly "15" (the trailing genuine zero
digits of "1500" are stripped along with the ".0" suffix); the merge step
consequently matches such a row against the census block whose GEOID20 is
"15". -/
theorem claim_C9_block_trim :
    rstripDotZero (astypeStr (some "1500.0")) = "15" ∧
    mergeBlockGeoms (rstripDotZero (astypeStr (some "1500.0")))
        [⟨"SOMERVILLE", "15", ⟨0, 0, 1, 1⟩⟩] = [some ⟨0, 0, 1, 1⟩] := by
  exact ⟨rfl, rfl⟩

/-- Claim C10: for the three exact city names `get_bundle` returns that
city's single-city bundle, and for every other municipality string — not
just one designated wildcard — it falls through to the combined all-metro
bundle, raising nothing (the dispatch is a total function). -/
theorem claim_C10_dispatch (env : Env) :
    (∀ m : String, m ≠ "Cambridge" → m ≠ "Boston" → m ≠ "Somerville" →
      get_bundle m env = get_all_metro_bundle env) ∧
    get_bundle "Cambridge" env = get_cambridge_bundle env ∧
    get_bundle "Boston" env = get_boston_bundle env ∧
    get_bundle "Somerville" env = some (get_somerville_bundle env) := by
  refine ⟨fun m h1 h2 h3 => ?_, rfl, rfl, rfl⟩
  simp [get_bundle, h1, h2, h3]

/-- Concrete instantiation of the dispatch theorem: the unrecognized
municipality "Medford" falls through to the all-metro bundle. -/
theorem claim_C10_witness :
    get_bundle "Medford" emptyEnv = get_all_metro_bundle emptyEnv :=
  (claim_C10_dispatch emptyEnv).1 "Medford" (by decide) (by decide) (by decide)

/-- Claim C4 (amended): in the Somerville spatial join, a crime record
whose normalized block code matches no Somerville census block, or whose
matched block geometry intersects no neighborhood polygon, is retained as
exactly one output record with a null neighborhood — never dropped; a
record whose matched block geometry intersects exactly one neighborhood
polygon yields exactly one output record carrying that neighborhood.
(Containment in exactly one polygon alone does not ensure a unique output:
the join predicate is `intersects`, so a block touching a second polygon's
boundary is duplicated — see the counterexample.) -/
theorem claim_C4_spatial_join (macroMap : List (String × String))
    (r : SomervilleRow) (blocks : List BlockRow)
    (geoRows : List SomervilleGeoRow) :
    ((somervilleBlocks blocks).filter
        (fun b => b.geoid20 == rstripDotZero (astypeStr r.blockCode)) = [] →
      load_somerville_crime macroMap [r] blocks geoRows =
        [somRecord macroMap r none]) ∧
    (∀ b : BlockRow,
      (somervilleBlocks blocks).filter
          (fun b2 => b2.geoid20 == rstripDotZero (astypeStr r.blockCode)) = [b] →
      (load_somerville_geo geoRows).filter
          (fun reg => b.geom.intersects reg.geom) = [] →
      load_somerville_crime macroMap [r] blocks geoRows =
        [somRecord macroMap r none]) ∧
    (∀ (b : BlockRow) (reg : GeoRegion),
      (somervilleBlocks blocks).filter
          (fun b2 => b2.geoid20 == rstripDotZero (astypeStr r.blockCode)) = [b] →
      (load_somerville_geo geoRows).filter
          (fun reg2 => b.geom.intersects reg2.geom) = [reg] →
      load_somerville_crime macroMap [r] blocks geoRows =
        [somRecord macroMap r reg.rawName]) := by
  refine ⟨?_, ?_, ?_⟩
  · intro h
    simp [load_somerville_crime, mergeBlockGeoms, h, sjoinNeighborhoods]
  · intro b hb hreg
    simp [load_somerville_crime, mergeBlockGeoms, hb, sjoinNeighborhoods, hreg]
  · intro b reg hb hreg
    simp [load_somerville_crime, mergeBlockGeoms, hb, sjoinNeighborhoods, hreg]

/-- Concrete instantiation of the spatial-join theorem: a block code
matching one census block whose geometry intersects exactly one
neighborhood polygon yields exactly one record with that neighborhood. -/
theorem claim_C4_witness :
    load_somerville_crime [] [⟨none, none, none, some "7"⟩]
        [⟨"SOMERVILLE", "7", ⟨0, 0, 1, 1⟩⟩] [⟨some "N", ⟨0, 0, 1, 1⟩, 1⟩] =
      [somRecord [] ⟨none, none, none, some "7"⟩ (some "N")] :=
  (claim_C4_spatial_join [] ⟨none, none, none, some "7"⟩
      [⟨"SOMERVILLE", "7", ⟨0, 0, 1, 1⟩⟩] [⟨some "N", ⟨0, 0, 1, 1⟩, 1⟩]).2.2
    ⟨"SOMERVILLE", "7", ⟨0, 0, 1, 1⟩⟩
    ⟨some "N", some "N", ⟨0, 0, 1, 1⟩, 1, none⟩ rfl rfl

/-- Claim C4 as stated is false on the code: the block geometry
[0,1]×[0,1] is contained (shapely `within`) in exactly one of the two
neighborhood polygons [0,1]×[0,1] and [1,2]×[0,1], yet the join — which
uses the `intersects` predicate — emits two output records for the single
crime record, because the block also touches the second polygon along the
shared edge x = 1. -/
theorem claim_C4_counterexample :
    ((load_somerville_geo
        [⟨some "A", ⟨0, 0, 1, 1⟩, 1⟩, ⟨some "B", ⟨1, 0, 2, 1⟩, 1⟩]).filter
      (fun reg => Box.within ⟨0, 0, 1, 1⟩ reg.geom)).length = 1 ∧
    (load_somerville_crime []
      [⟨none, none, none, some "7"⟩]
      [⟨"SOMERVILLE", "7", ⟨0, 0, 1, 1⟩⟩]
      [⟨some "A", ⟨0, 0, 1, 1⟩, 1⟩, ⟨some "B", ⟨1, 0, 2, 1⟩, 1⟩]).length = 2 := by
  exact ⟨rfl, rfl⟩

theorem optionTraverse_singleton (f : α → Option β) (x : α) :
    optionTraverse f [x] = (f x).map (fun y => [y]) := by
  cases h : f x <;> simp [optionTraverse, h]

theorem mergeBlockGeoms_ne_nil (code : String) (blocks : List BlockRow) :
    mergeBlockGeoms code blocks ≠ [] := by
  cases h : (somervilleBlocks blocks).filter (fun b => b.geoid20 == code) with
  | nil => simp [mergeBlockGeoms, h]
  | cons b bs => simp [mergeBlockGeoms, h]

theorem sjoinNeighborhoods_ne_nil (og : Option Box) (geo_df : List GeoRegion) :
    sjoinNeighborhoods og geo_df ≠ [] := by
  cases og with
  | none => simp [sjoinNeighborhoods]
  | some g =>
      cases h : geo_df.filter (fun reg => g.intersects reg.geom) with
      | nil => simp [sjoinNeighborhoods, h]
      | cons m ms => simp [sjoinNeighborhoods, h]

theorem load_somerville_crime_singleton_ne_nil
    (macroMap : List (String × String)) (r : SomervilleRow)
    (blocks : List BlockRow) (geoRows : List SomervilleGeoRow) :
    load_somerville_crime macroMap [r] blocks geoRows ≠ [] := by
  obtain ⟨m, ms, hm⟩ := List.exists_cons_of_ne_nil
    (mergeBlockGeoms_ne_nil (rstripDotZero (astypeStr r.blockCode)) blocks)
  obtain ⟨n, ns, hn⟩ := List.exists_cons_of_ne_nil
    (sjoinNeighborhoods_ne_nil m (load_somerville_geo geoRows))
  simp [load_somerville_crime, hm, hn]

theorem mem_load_somerville_crime_singleton
    (macroMap : List (String × String)) (r : SomervilleRow)
    (blocks : List BlockRow) (geoRows : List SomervilleGeoRow)
    (rec : CrimeRecord)
    (h : rec ∈ load_somerville_crime macroMap [r] blocks geoRows) :
    ∃ nb, rec = somRecord macroMap r nb := by
  simp only [load_somerville_crime, List.flatMap_cons, List.flatMap_nil,
    List.append_nil, List.mem_flatMap, List.mem_map] at h
  obtain ⟨og, _, nb, _, hrec⟩ := h
  exact ⟨nb, hrec.symm⟩

/-- Claim C5 (amended): the Boston and Somerville Source Loaders obtain the
macro crime category by looking the title-cased crime label up in the fixed
per-city category table; the Cambridge loader looks the raw crime label up
with no case normalization; in every city an unmapped label yields a null
macro category with the record retained and no error raised. -/
theorem claim_C5_macro_lookup (macroMap nameMap : List (String × String))
    (rc : CambridgeRow) (rb : BostonRow) (rs : SomervilleRow)
    (blocks : List BlockRow) (geoRows : List SomervilleGeoRow) :
    (∀ recs, load_cambridge_crime macroMap [rc] = some recs →
      recs.map CrimeRecord.macroCrime = [pdMap macroMap rc.crime]) ∧
    (∀ recs, load_boston_crime macroMap nameMap [rb] = some recs →
      recs.map CrimeRecord.macroCrime = [pdMap macroMap (rb.crime.map strTitle)]) ∧
    (load_somerville_crime macroMap [rs] blocks geoRows ≠ [] ∧
      ∀ rec ∈ load_somerville_crime macroMap [rs] blocks geoRows,
        rec.macroCrime = lookupStr macroMap (strTitle (astypeStr rs.offenseType))) := by
  refine ⟨?_, ?_, load_somerville_crime_singleton_ne_nil _ _ _ _, ?_⟩
  · intro recs h
    rw [load_cambridge_crime, optionTraverse_singleton] at h
    obtain ⟨d, _, hrecs⟩ := Option.map_eq_some'.mp
      (by simpa [Option.map_map] using h)
    subst hrecs
    simp [cambridgeRecord, Function.comp]
  · intro recs h
    rw [load_boston_crime, optionTraverse_singleton] at h
    obtain ⟨d, _, hrecs⟩ := Option.map_eq_some'.mp
      (by simpa [Option.map_map] using h)
    subst hrecs
    simp [bostonRecord, Function.comp]
  · intro rec hrec
    obtain ⟨nb, hnb⟩ :=
      mem_load_somerville_crime_singleton macroMap rs blocks geoRows rec hrec
    subst hnb
    rfl

/-- Concrete instantiation of the macro-lookup theorem: a Cambridge row
whose raw label "A" is a key of the table receives that macro category. -/
theorem claim_C5_witness :
    ([{ date := none, crime := some "A", macroCrime := some "B",
        neighborhood := none }] : List CrimeRecord).map CrimeRecord.macroCrime =
      [pdMap [("A", "B")] (some "A")] :=
  (claim_C5_macro_lookup [("A", "B")] [] ⟨none, some "A", none, none⟩
      ⟨none, none, none, none⟩ ⟨none, none, none, none⟩ [] []).1
    [{ date := none, crime := some "A", macroCrime := some "B",
        neighborhood := none }] rfl

/-- Claim C5 as stated is false on the code: the Cambridge loader performs
no case normalization, so the lower-case label "larceny" misses the table
keyed by "Larceny" and yields a null macro category even though looking up
the title-cased label would succeed. -/
theorem claim_C5_counterexample :
    load_cambridge_crime [("Larceny", "Property")]
        [⟨none, some "larceny", none, none⟩] =
      some [{ date := none
              crime := some "larceny"
              macroCrime := none
              neighborhood := none }] ∧
    lookupStr [("Larceny", "Property")] (strTitle "larceny") = some "Property" ∧
    (none : Option String) ≠ some "Property" := by
  exact ⟨rfl, rfl, by decide⟩

/-- Claim C6 (amended): the Boston Geo Loader attaches the name-table value
with fallback to the raw region name; the Cambridge Geo Loader attaches the
bare table lookup, leaving the name null — not the raw name — when no
mapping exists; the Somerville Geo Loader attaches the raw `NBHD` name
unchanged. -/
theorem claim_C6_geo_names (nameMap : List (String × String))
    (crows : List CambridgeGeoRow) (brows : List BostonGeoRow)
    (srows : List SomervilleGeoRow) :
    (load_cambridge_geo nameMap crows).map GeoRegion.mappedName =
      crows.map (fun r => pdMap nameMap r.name) ∧
    (load_boston_geo nameMap brows).map GeoRegion.mappedName =
      brows.map (fun r => fillna (pdMap nameMap r.blockgr202) r.blockgr202) ∧
    (load_somerville_geo srows).map GeoRegion.mappedName =
      srows.map SomervilleGeoRow.nbhd := by
  refine ⟨?_, ?_, ?_⟩ <;>
    simp [load_cambridge_geo, load_boston_geo, load_somerville_geo,
      List.map_map, Function.comp]

/-- Claim C6 as stated is false on the code: a Cambridge region whose raw
name "X" has no mapping in the name table comes out with a null
`Mapped_Name`, not with the raw name "X". -/
theorem claim_C6_counterexample :
    (load_cambridge_geo [] [⟨some "X", ⟨0, 0, 1, 1⟩, 1⟩]).map
      GeoRegion.mappedName = [none] ∧
    (none : Option String) ≠ some "X" := by
  exact ⟨rfl, by decide⟩

theorem optionTraverse_mem {f : α → Option β} :
    ∀ {l : List α} {recs : List β}, optionTraverse f l = some recs →
      ∀ y ∈ recs, ∃ x ∈ l, f x = some y := by
  intro l
  induction l with
  | nil =>
      intro recs h y hy
      simp only [optionTraverse, Option.some.injEq] at h
      subst h
      simp at hy
  | cons x xs ih =>
      intro recs h y hy
      cases hf : f x with
      | none => simp [optionTraverse, hf] at h
      | some z =>
          cases ht : optionTraverse f xs with
          | none => simp [optionTraverse, hf, ht] at h
          | some zs =>
              simp only [optionTraverse, hf, ht, Option.some.injEq] at h
              subst h
              rcases List.mem_cons.mp hy with h1 | h1
              · exact ⟨x, List.mem_cons_self _ _, h1 ▸ hf⟩
              · obtain ⟨a, ha, hfa⟩ := ih ht y h1
                exact ⟨a, List.mem_cons_of_mem _ ha, hfa⟩

/-- Claim C7 (amended): every record the Somerville loader emits has a
non-null crime label unconditionally (the label is coerced through
`astype(str)`); a record emitted by the Cambridge or Boston loader has a
non-null crime label whenever the source row's crime cell is non-null —
but those two loaders pass a null source cell through as a null crime
label (see the counterexample). -/
theorem claim_C7_crime_label (macroMap nameMap : List (String × String))
    (crows : List CambridgeRow) (brows : List BostonRow)
    (srows : List SomervilleRow) (blocks : List BlockRow)
    (geoRows : List SomervilleGeoRow) :
    (∀ recs, load_cambridge_crime macroMap crows = some recs →
      (∀ r ∈ crows, r.crime.isSome) → ∀ rec ∈ recs, rec.crime.isSome) ∧
    (∀ recs, load_boston_crime macroMap nameMap brows = some recs →
      (∀ r ∈ brows, r.crime.isSome) → ∀ rec ∈ recs, rec.crime.isSome) ∧
    (∀ rec ∈ load_somerville_crime macroMap srows blocks geoRows,
      rec.crime.isSome) := by
  refine ⟨?_, ?_, ?_⟩
  · intro recs h hall rec hrec
    obtain ⟨x, hx, hfx⟩ := optionTraverse_mem h rec hrec
    obtain ⟨d, _, hd⟩ := Option.map_eq_some'.mp hfx
    subst hd
    simpa [cambridgeRecord] using hall x hx
  · intro recs h hall rec hrec
    obtain ⟨x, hx, hfx⟩ := optionTraverse_mem h rec hrec
    obtain ⟨d, _, hd⟩ := Option.map_eq_some'.mp hfx
    subst hd
    simpa [bostonRecord] using hall x hx
  · intro rec hrec
    simp only [load_somerville_crime, List.mem_flatMap, List.mem_map] at hrec
    obtain ⟨r, _, og, _, nb, _, hrec⟩ := hrec
    subst hrec
    rfl

/-- Concrete instantiation of the crime-label theorem: a Cambridge row with
the non-null label "X" yields a record with a non-null label. -/
theorem claim_C7_witness :
    ({ date := none, crime := some "X", macroCrime := none,
        neighborhood := none } : CrimeRecord).crime.isSome :=
  (claim_C7_crime_label [] [] [⟨none, some "X", none, none⟩] [] [] [] []).1
    [{ date := none, crime := some "X", macroCrime := none,
        neighborhood := none }] rfl (by decide)
    { date := none, crime := some "X", macroCrime := none, neighborhood := none }
    (by simp)

/-- Claim C7 as stated is false on the code: a Cambridge source row whose
crime cell is missing (NaN) is emitted as a record whose crime label is
null — the loader does nothing to enforce a non-null label. -/
theorem claim_C7_counterexample :
    (load_cambridge_crime [] [⟨none, none, none, none⟩]).map
      (fun recs => recs.all (fun rec => rec.crime.isSome)) = some false := by
  rfl

/-- Claim C8: every record the Somerville loader emits from a row is
retained and carries the date obtained by parsing the concatenation
`day-month ++ "/" ++ year` of the stripped day/month cell (with "01/01"
substituted when that cell is blank or missing) and the stringified year
cell, a string that fails to parse yielding a null date rather than an
exception; in particular a blank day/month cell with year "2022" resolves
to January 1, 2022. -/
theorem claim_C8_somerville_date (macroMap : List (String × String))
    (r : SomervilleRow) (blocks : List BlockRow)
    (geoRows : List SomervilleGeoRow) :
    load_somerville_crime macroMap [r] blocks geoRows ≠ [] ∧
    ∀ rec ∈ load_somerville_crime macroMap [r] blocks geoRows,
      rec.date = parseDate (somDateString r) ∧
      (pyStrip (r.dayMonthReported.getD "") = "" →
        astypeStr r.yearReported = "2022" → rec.date = some ⟨2022, 1, 1⟩) := by
  refine ⟨load_somerville_crime_singleton_ne_nil _ _ _ _, ?_⟩
  intro rec hrec
  obtain ⟨nb, hnb⟩ :=
    mem_load_somerville_crime_singleton macroMap r blocks geoRows rec hrec
  subst hnb
  refine ⟨rfl, ?_⟩
  intro hblank hyear
  simp [somRecord, somDateString, hblank, hyear]
  rfl

/-- Concrete instantiation of the date-reconstruction theorem: a row with a
missing day/month cell and year "2022" is dated January 1, 2022. -/
theorem claim_C8_witness :
    (somRecord [] ⟨none, some "2022", none, none⟩ none).date =
      some ⟨2022, 1, 1⟩ :=
  ((claim_C8_somerville_date [] ⟨none, some "2022", none, none⟩ [] []).2
    (somRecord [] ⟨none, some "2022", none, none⟩ none) (by decide)).2 rfl rfl

end CrimeMap
